import Mathlib

/-!
Verification development for the MIDT fMRI pipeline (Python sources under
`midt_pipeline/`).  The modules embedded here are:

* `events.py`   — behavioral-timing-log to BIDS-events decoder
  (`extract_midt_events`, `process_single_trial`);
* `config.py`   — exclusion-list semantics (`get_valid_subjects_for_session`);
* `motion.py`   — motion quality-control statistics (`calculate_motion_qc`);
* `first_level.py` — contrast catalogue and name-based contrast resolution
  (`define_midt_contrasts` and the per-contrast branch of
  `run_first_level_midt`);
* `pipeline.py` / `utils.py` — the per-subject analysis fan-out of
  `process_single_session` (`process_single_subject`,
  `safe_parallel_processing`).

Modelling conventions: pandas/numpy floats are embedded as `ℚ` (or `ℝ` where
the source computes square roots / degree conversions); a float `NaN` produced
by `pd.to_numeric(errors=coerce)` is embedded as `none : Option ℚ`, with
arithmetic propagating `none` and every comparison against `none` false, which
matches IEEE NaN in the comparisons the source performs.  A Python exception
that the source catches at a boundary is embedded by making the callee return
the caught-case value (`[]`, `false`, …); fallible top-level calls return
`Except`.
-/

namespace MIDT

/-! ## NaN-aware scalar operations (pandas semantics) -/

/-- Millisecond → second conversion `x / 1000`; `NaN` propagates. -/
def nanDiv1000 (x : Option ℚ) : Option ℚ := x.map (fun v => v / 1000)

/-- Subtraction with `NaN` propagation (either operand missing → missing). -/
def nanSub (a b : Option ℚ) : Option ℚ :=
  match a, b with
  | some x, some y => some (x - y)
  | _, _ => none

/-- The pandas filter `onset >= 0`: false whenever onset is `NaN`. -/
def nanGe0 (a : Option ℚ) : Bool :=
  match a with
  | some x => decide (0 ≤ x)
  | none => false

/-! ## Substring matching (Python `pat in s`) -/

/-- `charsPrefixEq pat s` : `pat` is a prefix of `s` (character lists). -/
def charsPrefixEq : List Char → List Char → Bool
  | [], _ => true
  | _ :: _, [] => false
  | a :: as, b :: bs => a = b && charsPrefixEq as bs

/-- `charsContains pat s` : `pat` occurs as a contiguous run inside `s`. -/
def charsContains (pat : List Char) : List Char → Bool
  | [] => pat.isEmpty
  | c :: rest => charsPrefixEq pat (c :: rest) || charsContains pat rest

/-- Python's `str.lower()` (ASCII case folding on the underlying character
list, matching `String.toLower`). -/
def strToLower (s : String) : String := ⟨s.data.map Char.toLower⟩

/-- Python's `pat in s` membership test on strings. -/
def strContains (s pat : String) : Bool := charsContains pat.toList s.toList

/-! ## events.py — data model

`Row` is one data line of the timing log after header reconciliation and
numeric coercion, restricted to the cells `process_single_trial` actually
reads by position: `iloc[i, 2]` (cue_type), `iloc[i, 3]` (acc),
`iloc[i, 9/10/11]` (onsettime_cue / onsettime_target / onsettime_feedback).
The numeric cells carry `Option ℚ` because `pd.to_numeric(errors=coerce)`
turns non-numeric text into `NaN`. -/

structure Row where
  cue_type : String
  acc : Option ℚ
  onsettime_cue : Option ℚ
  onsettime_target : Option ℚ
  onsettime_feedback : Option ℚ
deriving DecidableEq

/-- One BIDS event row as built by `process_single_trial`
(`onset`, `duration`, `trial_type`, `accuracy`, `response_time`). -/
structure Event where
  onset : Option ℚ
  duration : Option ℚ
  trial_type : String
  accuracy : Option ℚ
  response_time : Option ℚ
deriving DecidableEq

/-- `process_single_trial(timing_data, trial_idx)` from events.py.
An out-of-range trial index raises `IndexError` in the source, which is caught
(there and in the caller's per-trial `try`) and yields no events; that caught
case is the `none` branch here.  The source checks
`'smile' in str(cue_type).lower()` for the reward class and
`'neutral' in str(cue_type).lower()` for the neutral class, reward first. -/
def process_single_trial (timing_data : List Row) (trial_idx : ℕ) : List Event :=
  match timing_data.get? trial_idx with
  | none => []
  | some row =>
    let accuracy := row.acc
    let cue_onset := nanDiv1000 row.onsettime_cue
    let cue_offset := nanDiv1000 row.onsettime_target
    let feedback_onset := nanDiv1000 row.onsettime_feedback
    let cue_duration := nanSub cue_offset cue_onset
    let feedback_duration : Option ℚ := some 2
    if strContains (strToLower row.cue_type) "smile" then
      [ { onset := cue_onset, duration := cue_duration,
          trial_type := "anticip-reward", accuracy := accuracy,
          response_time := none },
        { onset := feedback_onset, duration := feedback_duration,
          trial_type := if accuracy = some 1 then "fb-reward" else "fb-miss-reward",
          accuracy := accuracy, response_time := none } ]
    else if strContains (strToLower row.cue_type) "neutral" then
      [ { onset := cue_onset, duration := cue_duration,
          trial_type := "anticip-neutral", accuracy := accuracy,
          response_time := none },
        { onset := feedback_onset, duration := feedback_duration,
          trial_type := if accuracy = some 1 then "fb-corr-neutral" else "fb-incorr-neutral",
          accuracy := accuracy, response_time := none } ]
    else []

/-- The classification window of `extract_midt_events`:
`trial_start = 20`, `trial_end = min(79, len(timing_data) - 1)`, inclusive. -/
def trialWindow (timing_data : List Row) : List ℕ :=
  List.range' 20 (min 79 (timing_data.length - 1) + 1 - 20)

/-- The per-trial loop of `extract_midt_events`: concatenation of every
trial's events over the classification window (a trial whose processing
raises is skipped with a warning, i.e. contributes `[]`). -/
def eventsList (timing_data : List Row) : List Event :=
  (trialWindow timing_data).flatMap (process_single_trial timing_data)

/-! ## events.py — sorting, dummy-scan shift, filtering -/

/-- Onset comparison used by `events_df.sort_values(onset)`; pandas places
`NaN` last. -/
def onsetLe (a b : Event) : Bool :=
  match a.onset, b.onset with
  | some x, some y => decide (x ≤ y)
  | some _, none => true
  | none, some _ => false
  | none, none => true

/-- Ordered insertion for `sortByOnset`. -/
def insertEvent (e : Event) : List Event → List Event
  | [] => [e]
  | f :: rest => if onsetLe e f then e :: f :: rest else f :: insertEvent e rest

/-- `events_df.sort_values(onset)` embedded as an insertion sort over
`onsetLe`. -/
def sortByOnset : List Event → List Event
  | [] => []
  | e :: rest => insertEvent e (sortByOnset rest)

/-- Hard-coded dummy-scan count in `extract_midt_events`
(`dummy_scans = 5`). -/
def dummy_scans : ℕ := 5

/-- Hard-coded repetition time in `extract_midt_events` (`tr = 1.6`). -/
def tr : ℚ := 8 / 5

/-- `dummy_scan_time = dummy_scans * tr` (8.0 seconds) in
`extract_midt_events`; the source ignores the configuration here. -/
def dummy_scan_time : ℚ := (dummy_scans : ℚ) * tr

/-- The global onset shift `events_df.onset - dummy_scan_time` applied to one
event. -/
def shiftEvent (e : Event) : Event :=
  { e with onset := e.onset.map (fun x => x - dummy_scan_time) }

/-- The global onset shift applied to the whole events table. -/
def adjustOnsets (es : List Event) : List Event := es.map shiftEvent

/-- `events_df[events_df.onset >= 0]`. -/
def filterNonNeg (es : List Event) : List Event :=
  es.filter (fun e => nanGe0 e.onset)

/-- The two error exits of `extract_midt_events`:
`Timing file is empty` and `No valid trials found`. -/
inductive DecodeError where
  | emptyTimingFile
  | noValidTrials
deriving DecidableEq

/-- `extract_midt_events` from events.py, from the point where the data rows
have been parsed and numerically coerced (file I/O, subject-ID resolution and
the final `to_csv` are plumbing outside this embedding): empty-table check,
per-trial loop over the classification window, no-valid-trials check, sort by
onset, dummy-scan shift, negative-onset filter. -/
def extract_midt_events (timing_data : List Row) :
    Except DecodeError (List Event) :=
  if timing_data.isEmpty then .error .emptyTimingFile
  else
    let events_list := eventsList timing_data
    if events_list.isEmpty then .error .noValidTrials
    else .ok (filterNonNeg (adjustOnsets (sortByOnset events_list)))

/-- The six trial-type labels `extract_midt_events` can emit. -/
def midtTrialTypes : List String :=
  ["anticip-reward", "anticip-neutral", "fb-reward", "fb-miss-reward",
   "fb-corr-neutral", "fb-incorr-neutral"]

/-- The four feedback labels. -/
def feedbackTrialTypes : List String :=
  ["fb-reward", "fb-miss-reward", "fb-corr-neutral", "fb-incorr-neutral"]

/-! ### Concrete timing tables used as test inputs -/

/-- A row whose cue type matches neither keyword class: it produces no
events, so it can pad the pre-window region. -/
def fillerRow : Row := ⟨"fix", some 0, some 0, some 0, some 0⟩

/-- A reward trial whose cue-offset timestamp precedes its cue-onset
timestamp (cue 10000 ms, target 9000 ms, feedback 12000 ms). -/
def negDurRow : Row := ⟨"smile", some 1, some 10000, some 9000, some 12000⟩

/-- A timing table whose only in-window trial is `negDurRow` (21 rows, the
classification window is then exactly trial 20). -/
def rowsNegDur : List Row := List.replicate 20 fillerRow ++ [negDurRow]

/-- The decoded output of `rowsNegDur`: onsets 10 s and 12 s, sorted, shifted
by 8 s and filtered; the anticipation event keeps its negative duration. -/
def eventsNegDur : List Event :=
  [⟨some 2, some (-1), "anticip-reward", some 1, none⟩,
   ⟨some 4, some 2, "fb-reward", some 1, none⟩]

/-- A trial whose cue-type label is literally `reward` (well-formed
timestamps: cue 10000 ms, target 11000 ms, feedback 14000 ms). -/
def rewardNameRow : Row := ⟨"reward", some 1, some 10000, some 11000, some 14000⟩

/-- A timing table whose only in-window trial is `rewardNameRow`. -/
def rowsRewardName : List Row := List.replicate 20 fillerRow ++ [rewardNameRow]

/-- A well-formed reward trial (cue 20000 ms, target 21000 ms, feedback
24000 ms). -/
def shiftDemoRow : Row := ⟨"smile", some 1, some 20000, some 21000, some 24000⟩

/-- A timing table whose only in-window trial is `shiftDemoRow`. -/
def rowsShiftDemo : List Row := List.replicate 20 fillerRow ++ [shiftDemoRow]

/-- A neutral trial with well-formed timestamps (cue 30000 ms, target
31000 ms, feedback 34000 ms). -/
def neutralRow : Row := ⟨"Neutral", some 0, some 30000, some 31000, some 34000⟩

/-- A timing table with two in-window trials (indices 20 and 21). -/
def rowsTwoTrials : List Row :=
  List.replicate 20 fillerRow ++ [shiftDemoRow, neutralRow]

/-- A row with every timestamp non-numeric (coerced to `NaN`). -/
def corruptRow : Row := ⟨"Neutral", none, none, none, none⟩

/-- `rowsTwoTrials` with trial 21's row corrupted. -/
def rowsTwoTrialsB : List Row := rowsTwoTrials.set 21 corruptRow

/-! ## config.py — `MIDTConfig` and exclusion-list semantics

Only the configuration fields the embedded code reads are carried; paths,
stage flags and task parameters are plumbing. -/

structure MIDTConfig where
  subject_ids : List String
  sessions_to_process : List String
  excluded_subjects : List (List String)
  tr : ℚ
  dummy_scans : ℕ

/-- The per-entry affectedness test inside `get_valid_subjects_for_session`:
the entry tag is `all`, or exactly `ses-<session>`.  (The source also accepts
a YAML list of tags; per the declared type `List[List[str]]` the tag cell is a
string, so that defensive branch is dead and not modelled.) -/
def sessionAffected (affected_sessions session : String) : Bool :=
  affected_sessions = "all" || affected_sessions = "ses-" ++ session

/-- One iteration of the exclusion loop of `get_valid_subjects_for_session`:
entries shorter than 3 cells are ignored; an affecting entry removes the first
occurrence of its subject (`list.remove`). -/
def applyExclusion (session : String) (valid_subjects : List String)
    (exclusion : List String) : List String :=
  if 3 ≤ exclusion.length then
    if sessionAffected (exclusion.getD 2 "") session ∧ exclusion.getD 0 "" ∈ valid_subjects then
      valid_subjects.erase (exclusion.getD 0 "")
    else valid_subjects
  else valid_subjects

/-- `MIDTConfig.get_valid_subjects_for_session` from config.py: start from a
copy of `subject_ids` and fold the exclusion entries over it. -/
def MIDTConfig.get_valid_subjects_for_session (config : MIDTConfig)
    (session : String) : List String :=
  config.excluded_subjects.foldl (applyExclusion session) config.subject_ids

/-! ## first_level.py — contrast catalogue and resolution -/

/-- `define_midt_contrasts()` from first_level.py, in dict insertion order. -/
def define_midt_contrasts : List (String × List ℚ) :=
  [("anticip-reward-vs-neutral", [1, -1, 0, 0, 0, 0]),
   ("anticip-neutral-vs-reward", [-1, 1, 0, 0, 0, 0]),
   ("feedback-reward-vs-neutral-correct", [0, 0, 1, 0, -1, 0]),
   ("feedback-neutral-correct-vs-reward", [0, 0, -1, 0, 1, 0]),
   ("feedback-reward-success-vs-failure", [0, 0, 1, -1, 0, 0]),
   ("feedback-reward-failure-vs-success", [0, 0, -1, 1, 0, 0]),
   ("feedback-neutral-success-vs-failure", [0, 0, 0, 0, 1, -1]),
   ("feedback-neutral-failure-vs-success", [0, 0, 0, 0, -1, 1]),
   ("anticip-reward", [1, 0, 0, 0, 0, 0]),
   ("anticip-neutral", [0, 1, 0, 0, 0, 0]),
   ("feedback-reward-success", [0, 0, 1, 0, 0, 0]),
   ("feedback-neutral-success", [0, 0, 0, 0, 1, 0])]

/-- `startswith` against the tuple `(drift, constant)` used to select the
condition columns of the realized design matrix. -/
def isDriftOrConstant (col : String) : Bool :=
  charsPrefixEq "drift".toList col.toList || charsPrefixEq "constant".toList col.toList

/-- `condition_columns` in `run_first_level_midt`: the design-matrix columns
that do not start with `drift` or `constant`. -/
def conditionColumns (design_columns : List String) : List String :=
  design_columns.filter (fun col => !isDriftOrConstant col)

/-- What the per-contrast branch of `run_first_level_midt` passes to
`compute_contrast`: a bare condition name (simple contrasts) or a numeric
weight vector over the realized condition columns (paired contrasts). -/
inductive ContrastDef where
  | cond (name : String)
  | vec (weights : List ℚ)
deriving DecidableEq

/-- The paired-contrast construction of `run_first_level_midt`: if both
condition names are among the realized condition columns, a zero vector of
their count with `+1` at `condition_columns.index(pos)` and `-1` at
`condition_columns.index(neg)`; otherwise the contrast is skipped (`none`). -/
def pairedVector (condition_columns : List String) (pos neg : String) :
    Option ContrastDef :=
  if pos ∈ condition_columns ∧ neg ∈ condition_columns then
    some (.vec (((List.replicate condition_columns.length (0 : ℚ)).set
      (condition_columns.indexOf pos) 1).set
      (condition_columns.indexOf neg) (-1)))
  else none

/-- The `contrast_name` dispatch of `run_first_level_midt` (lines 166-214):
four simple contrasts resolve to a condition name, four of the paired
catalogue contrasts resolve through `pairedVector`, and every other name —
including the four reversed paired contrasts of the catalogue — falls into
the `Skipping complex contrast` branch and is never constructed. -/
def resolve_contrast (contrast_name : String) (condition_columns : List String) :
    Option ContrastDef :=
  if contrast_name = "anticip-reward" then some (.cond "anticip-reward")
  else if contrast_name = "anticip-neutral" then some (.cond "anticip-neutral")
  else if contrast_name = "feedback-reward-success" then some (.cond "fb-reward")
  else if contrast_name = "feedback-neutral-success" then some (.cond "fb-corr-neutral")
  else if contrast_name = "anticip-reward-vs-neutral" then
    pairedVector condition_columns "anticip-reward" "anticip-neutral"
  else if contrast_name = "feedback-reward-vs-neutral-correct" then
    pairedVector condition_columns "fb-reward" "fb-corr-neutral"
  else if contrast_name = "feedback-reward-success-vs-failure" then
    pairedVector condition_columns "fb-reward" "fb-miss-reward"
  else if contrast_name = "feedback-neutral-success-vs-failure" then
    pairedVector condition_columns "fb-corr-neutral" "fb-incorr-neutral"
  else none

/-- The paired contrasts `run_first_level_midt` actually handles, with the
positively and negatively weighted condition of each. -/
def handledPairedContrasts : List (String × String × String) :=
  [("anticip-reward-vs-neutral", "anticip-reward", "anticip-neutral"),
   ("feedback-reward-vs-neutral-correct", "fb-reward", "fb-corr-neutral"),
   ("feedback-reward-success-vs-failure", "fb-reward", "fb-miss-reward"),
   ("feedback-neutral-success-vs-failure", "fb-corr-neutral", "fb-incorr-neutral")]

/-! ## motion.py — motion quality control

`calculate_motion_qc` works on real numbers because it takes square roots and
converts radians to degrees; its summary fields are `Option ℝ` with `none`
embedding the `np.nan` sentinel. -/

/-- `[i for i, param in enumerate(motion_params) if pat in param]`. -/
def indicesContaining (motion_params : List String) (pat : String) : List ℕ :=
  (motion_params.enum.filter (fun p => strContains p.2 pat)).map Prod.fst

/-- Column selection `motion_data[:, idx]` (row-major matrix as a list of
rows; numpy guarantees the indices are in range, out-of-range defaults 0). -/
def selectCols (motion_data : List (List ℝ)) (idx : List ℕ) : List (List ℝ) :=
  motion_data.map (fun row => idx.map (fun i => row.getD i 0))

/-- `np.max` over a flat list (numpy errors on an empty array; the branches
below only apply it to data built from a nonempty column selection, and the
`0` completion for `[]` is never relied on). -/
noncomputable def listMax : List ℝ → ℝ
  | [] => 0
  | x :: xs => xs.foldl max x

/-- `np.mean` over a flat list. -/
noncomputable def listMean (xs : List ℝ) : ℝ := xs.sum / xs.length

/-- `np.std` (population standard deviation) over a flat list. -/
noncomputable def listStd (xs : List ℝ) : ℝ :=
  Real.sqrt (((xs.map (fun x => (x - listMean xs) ^ 2)).sum) / xs.length)

/-- The `qc_metrics` record assembled by `calculate_motion_qc`. -/
structure MotionQC where
  max_motion_mm : Option ℝ
  mean_motion_mm : Option ℝ
  std_motion_mm : Option ℝ
  max_abs_displacement : Option ℝ
  mean_abs_displacement : Option ℝ
  max_rotation_deg : Option ℝ
  mean_rotation_deg : Option ℝ

/-- The translation branch of `calculate_motion_qc`: per-volume Euclidean
norm over the translation columns, plus flattened absolute-displacement
statistics; all five fields are the `NaN` sentinel when no translation column
is present. -/
noncomputable def transStats (motion_data : List (List ℝ)) (trans_idx : List ℕ) :
    Option ℝ × Option ℝ × Option ℝ × Option ℝ × Option ℝ :=
  if trans_idx.isEmpty then (none, none, none, none, none)
  else
    let trans_data := selectCols motion_data trans_idx
    let translation_euclidean :=
      trans_data.map (fun row => Real.sqrt ((row.map (fun x => x ^ 2)).sum))
    let abs_flat := (trans_data.map (fun row => row.map (fun x => |x|))).flatten
    (some (listMax translation_euclidean), some (listMean translation_euclidean),
     some (listStd translation_euclidean), some (listMax abs_flat),
     some (listMean abs_flat))

/-- The rotation branch of `calculate_motion_qc`: radians → degrees, then
max/mean of the absolute values pooled over all rotation samples; both fields
are the `NaN` sentinel when no rotation column is present. -/
noncomputable def rotStats (motion_data : List (List ℝ)) (rot_idx : List ℕ) :
    Option ℝ × Option ℝ :=
  if rot_idx.isEmpty then (none, none)
  else
    let rot_data := selectCols motion_data rot_idx
    let rot_deg_abs :=
      (rot_data.map (fun row => row.map (fun x => |x * (180 / Real.pi)|))).flatten
    (some (listMax rot_deg_abs), some (listMean rot_deg_abs))

/-- `calculate_motion_qc(motion_data, motion_params)` from motion.py:
translation indices are the parameters containing `trans`, rotation indices
those containing `rot`. -/
noncomputable def calculate_motion_qc (motion_data : List (List ℝ))
    (motion_params : List String) : MotionQC :=
  let t := transStats motion_data (indicesContaining motion_params "trans")
  let r := rotStats motion_data (indicesContaining motion_params "rot")
  { max_motion_mm := t.1, mean_motion_mm := t.2.1, std_motion_mm := t.2.2.1,
    max_abs_displacement := t.2.2.2.1, mean_abs_displacement := t.2.2.2.2,
    max_rotation_deg := r.1, mean_rotation_deg := r.2 }

/-! ## pipeline.py / utils.py — per-subject analysis fan-out (step 3 of
`process_single_session`) -/

/-- Outcome of one call to `run_first_level_midt` for a subject: a returned
status, or a raised exception (e.g. a missing input file). -/
inductive AnalysisOutcome where
  | ok (success : Bool)
  | raised (message : String)

/-- `process_single_subject` from pipeline.py: the subject-boundary guard —
a raised exception is caught, logged and converted to `False`. -/
def process_single_subject (analysis : String → AnalysisOutcome)
    (subject_id : String) : Bool :=
  match analysis subject_id with
  | .ok success => success
  | .raised _ => false

/-- The per-item results of `safe_parallel_processing` (utils.py): both the
sequential arm and the joblib arm produce one result per item, in item order;
the per-item `try` never fires because `process_single_subject` already
returns instead of raising. -/
def safe_parallel_results (f : String → Bool) (items : List String) : List Bool :=
  items.map f

/-- The tallying loop of the parallel branch of `process_single_session`
step 3: `enumerate(results)` zipped against `session_subjects`, counting
truthy results and appending the subject of each falsy one to the
failed-subject ledger. -/
def tallyResults (session_subjects : List String) (results : List Bool) :
    ℕ × List String :=
  (session_subjects.zip results).foldl
    (fun acc p => if p.2 then (acc.1 + 1, acc.2) else (acc.1, acc.2 ++ [p.1]))
    (0, [])

/-- Step 3 of `process_single_session` with `n_jobs > 1`: fan out through
`safe_parallel_processing`, then tally. -/
def step3_parallel (analysis : String → AnalysisOutcome)
    (session_subjects : List String) : ℕ × List String :=
  tallyResults session_subjects
    (safe_parallel_results (process_single_subject analysis) session_subjects)

/-- Step 3 of `process_single_session` with `n_jobs = 1`: the sequential
loop, counting successes and appending failures as it goes. -/
def step3_sequential (analysis : String → AnalysisOutcome)
    (session_subjects : List String) : ℕ × List String :=
  session_subjects.foldl
    (fun acc subject_id =>
      if process_single_subject analysis subject_id then (acc.1 + 1, acc.2)
      else (acc.1, acc.2 ++ [subject_id]))
    (0, [])

/-! ## Helper lemmas -/

theorem onsetLe_shiftEvent (a b : Event) :
    onsetLe (shiftEvent a) (shiftEvent b) = onsetLe a b := by
  cases ha : a.onset <;> cases hb : b.onset <;>
    simp [onsetLe, shiftEvent, ha, hb, sub_le_sub_iff_right]

theorem insertEvent_map_shift (e : Event) (l : List Event) :
    insertEvent (shiftEvent e) (l.map shiftEvent) = (insertEvent e l).map shiftEvent := by
  induction l with
  | nil => rfl
  | cons f rest ih =>
    cases h : onsetLe e f <;>
      simp [insertEvent, onsetLe_shiftEvent, h, ih]

theorem sortByOnset_map_shift (l : List Event) :
    sortByOnset (l.map shiftEvent) = (sortByOnset l).map shiftEvent := by
  induction l with
  | nil => rfl
  | cons e rest ih => simp [sortByOnset, ih, insertEvent_map_shift]

theorem mem_insertEvent {a e : Event} {l : List Event} :
    a ∈ insertEvent e l ↔ a = e ∨ a ∈ l := by
  induction l with
  | nil => simp [insertEvent]
  | cons f rest ih =>
    cases h : onsetLe e f <;> simp [insertEvent, h, ih] <;> tauto

theorem mem_sortByOnset {a : Event} {l : List Event} :
    a ∈ sortByOnset l ↔ a ∈ l := by
  induction l with
  | nil => simp [sortByOnset]
  | cons e rest ih => simp [sortByOnset, mem_insertEvent, ih]

theorem flatMap_congr_on {α β : Type} (l : List α) (f g : α → List β)
    (h : ∀ x ∈ l, f x = g x) : l.flatMap f = l.flatMap g := by
  induction l with
  | nil => rfl
  | cons a rest ih =>
    simp only [List.flatMap_cons, h a (by simp), ih (fun x hx => h x (by simp [hx]))]

/-! ## Claim theorems: orchestrator fan-out (pipeline.py) -/

theorem tallyResults_eq_sequential (analysis : String → AnalysisOutcome) :
    ∀ (subjects : List String) (acc : ℕ × List String),
    (subjects.zip (subjects.map (process_single_subject analysis))).foldl
      (fun a p => if p.2 then (a.1 + 1, a.2) else (a.1, a.2 ++ [p.1])) acc =
    subjects.foldl
      (fun a subject_id =>
        if process_single_subject analysis subject_id then (a.1 + 1, a.2)
        else (a.1, a.2 ++ [subject_id])) acc := by
  intro subjects
  induction subjects with
  | nil => intro acc; rfl
  | cons s rest ih =>
    intro acc
    simp only [List.map_cons, List.zip_cons_cons, List.foldl_cons]
    exact ih _

theorem step3_ledger_count (analysis : String → AnalysisOutcome) :
    ∀ (subjects : List String) (acc : ℕ × List String),
    (subjects.foldl
      (fun a subject_id =>
        if process_single_subject analysis subject_id then (a.1 + 1, a.2)
        else (a.1, a.2 ++ [subject_id])) acc).1 +
    (subjects.foldl
      (fun a subject_id =>
        if process_single_subject analysis subject_id then (a.1 + 1, a.2)
        else (a.1, a.2 ++ [subject_id])) acc).2.length =
    acc.1 + acc.2.length + subjects.length := by
  intro subjects
  induction subjects with
  | nil => intro acc; simp
  | cons s rest ih =>
    intro acc
    cases h : process_single_subject analysis s <;>
      simp only [List.foldl_cons, h, if_true, if_false, Bool.false_eq_true,
        List.length_cons] <;>
      rw [ih] <;> simp <;> omega

/-- A concrete analysis behavior: subject `sub-002` raises a
missing-input-file exception, every other subject succeeds. -/
def demoAnalysis : String → AnalysisOutcome := fun subject_id =>
  if subject_id = "sub-002" then .raised "MissingInputFileError" else .ok true

/-- `demoAnalysis` with only subject `sub-002` changed (it now succeeds). -/
def demoAnalysisB : String → AnalysisOutcome := fun subject_id =>
  if subject_id = "sub-002" then .ok true else demoAnalysis subject_id

/-- Claim C5: in the per-subject analysis stage of a session, one subject
failing — including with a raised exception — never aborts the stage or
changes a sibling subject result (the per-subject outcome of every other
subject is unchanged when only that subject's analysis behavior changes),
and the session ledger accounts for every subject exactly once:
succeeded + |failed| = total, with the sequential and the parallel fan-out
producing the same ledger. -/
theorem c5_subject_isolation_and_ledger (analysis analysisB : String → AnalysisOutcome)
    (subjects : List String) (s : String) :
    step3_sequential analysis subjects = step3_parallel analysis subjects ∧
    (step3_sequential analysis subjects).1 +
      (step3_sequential analysis subjects).2.length = subjects.length ∧
    ((∀ t, t ≠ s → analysisB t = analysis t) →
      ∀ t, t ≠ s →
        process_single_subject analysisB t = process_single_subject analysis t) := by
  refine ⟨?_, ?_, ?_⟩
  · unfold step3_sequential step3_parallel tallyResults safe_parallel_results
    exact (tallyResults_eq_sequential analysis subjects (0, [])).symm
  · unfold step3_sequential
    have h := step3_ledger_count analysis subjects (0, [])
    simpa using h
  · intro hagree t ht
    unfold process_single_subject
    rw [hagree t ht]

/-- Claim C5 witness: three subjects, the middle one raising a
missing-input-file exception; the ledger is 2 succeeded / 1 failed, the
sequential and parallel fan-outs agree, and the failing subject does not
change the outcome of a sibling. -/
theorem c5_witness :
    step3_sequential demoAnalysis ["sub-001", "sub-002", "sub-003"] =
      step3_parallel demoAnalysis ["sub-001", "sub-002", "sub-003"] ∧
    (step3_sequential demoAnalysis ["sub-001", "sub-002", "sub-003"]).1 +
      (step3_sequential demoAnalysis ["sub-001", "sub-002", "sub-003"]).2.length = 3 ∧
    process_single_subject demoAnalysisB "sub-003" =
      process_single_subject demoAnalysis "sub-003" := by
  have h := c5_subject_isolation_and_ledger demoAnalysis demoAnalysisB
    ["sub-001", "sub-002", "sub-003"] "sub-002"
  refine ⟨h.1, h.2.1, h.2.2 ?_ "sub-003" (by decide)⟩
  intro t ht
  simp only [demoAnalysisB, demoAnalysis]
  rw [if_neg ht]

/-! ## Claim theorems: event decoder algebra (events.py) -/

/-- Claim C9: the global dummy-scan time shift preserves the relative order
of events — sorting by onset after the shift gives exactly the shift of the
sort before it, so the sorted order of any decoded event sequence is the same
whether onsets are compared before or after the correction. -/
theorem c9_shift_preserves_relative_order (events : List Event) :
    sortByOnset (adjustOnsets events) = adjustOnsets (sortByOnset events) := by
  simp only [adjustOnsets]
  exact sortByOnset_map_shift events

/-- Claim C10: trial processing is local and failure-isolated — a trial whose
row data is out of range contributes no events (the raised exception is
caught at the per-trial boundary), changing the data of one trial never
changes any other trial's events, and the file-level event list is the
independent concatenation of the per-trial results over the classification
window. -/
theorem c10_per_trial_isolation (timing_data timing_dataB : List Row) (i : ℕ)
    (hlen : timing_data.length = timing_dataB.length)
    (hagree : ∀ j, j ≠ i → timing_data.get? j = timing_dataB.get? j) :
    (∀ k, timing_data.length ≤ k → process_single_trial timing_data k = []) ∧
    (∀ j, j ≠ i →
      process_single_trial timing_data j = process_single_trial timing_dataB j) ∧
    eventsList timing_dataB =
      (trialWindow timing_data).flatMap
        (fun j => if j = i then process_single_trial timing_dataB j
                  else process_single_trial timing_data j) := by
  have hlocal : ∀ j, j ≠ i →
      process_single_trial timing_data j = process_single_trial timing_dataB j := by
    intro j hj
    unfold process_single_trial
    rw [hagree j hj]
  refine ⟨?_, hlocal, ?_⟩
  · intro k hk
    unfold process_single_trial
    rw [List.get?_eq_none.mpr hk]
  · have hwin : trialWindow timing_dataB = trialWindow timing_data := by
      unfold trialWindow
      rw [hlen]
    unfold eventsList
    rw [hwin]
    refine flatMap_congr_on _ _ _ ?_
    intro j _
    by_cases hj : j = i
    · simp [hj]
    · simp [hj, hlocal j hj]

/-- Claim C10 witness: corrupting trial 21's row (missing timestamps) leaves
trial 20's events unchanged, and an out-of-window index yields no events. -/
theorem c10_witness :
    process_single_trial rowsTwoTrials 50 = [] ∧
    process_single_trial rowsTwoTrials 20 = process_single_trial rowsTwoTrialsB 20 := by
  have h := c10_per_trial_isolation rowsTwoTrials rowsTwoTrialsB 21
    (by simp [rowsTwoTrialsB])
    (fun j hj => (List.get?_set_ne corruptRow rowsTwoTrials (fun hc => hj hc.symm)).symm)
  exact ⟨h.1 50 (by decide), h.2.1 20 (by decide)⟩

/-! ## Claim theorems: decoded-event invariants (events.py) -/

theorem nanGe0_true {a : Option ℚ} (h : nanGe0 a = true) :
    ∃ x, a = some x ∧ 0 ≤ x := by
  cases a with
  | none => simp [nanGe0] at h
  | some x =>
    simp only [nanGe0, decide_eq_true_eq] at h
    exact ⟨x, rfl, h⟩

theorem process_single_trial_none {timing_data : List Row} {i : ℕ}
    (hg : timing_data.get? i = none) : process_single_trial timing_data i = [] := by
  unfold process_single_trial
  rw [hg]

theorem process_single_trial_reward {timing_data : List Row} {i : ℕ} {row : Row}
    (hg : timing_data.get? i = some row)
    (h1 : strContains (strToLower row.cue_type) "smile" = true) :
    process_single_trial timing_data i =
      [⟨nanDiv1000 row.onsettime_cue,
        nanSub (nanDiv1000 row.onsettime_target) (nanDiv1000 row.onsettime_cue),
        "anticip-reward", row.acc, none⟩,
       ⟨nanDiv1000 row.onsettime_feedback, some 2,
        if row.acc = some 1 then "fb-reward" else "fb-miss-reward",
        row.acc, none⟩] := by
  unfold process_single_trial
  rw [hg]
  simp [h1]

theorem process_single_trial_neutral {timing_data : List Row} {i : ℕ} {row : Row}
    (hg : timing_data.get? i = some row)
    (h1 : strContains (strToLower row.cue_type) "smile" = false)
    (h2 : strContains (strToLower row.cue_type) "neutral" = true) :
    process_single_trial timing_data i =
      [⟨nanDiv1000 row.onsettime_cue,
        nanSub (nanDiv1000 row.onsettime_target) (nanDiv1000 row.onsettime_cue),
        "anticip-neutral", row.acc, none⟩,
       ⟨nanDiv1000 row.onsettime_feedback, some 2,
        if row.acc = some 1 then "fb-corr-neutral" else "fb-incorr-neutral",
        row.acc, none⟩] := by
  unfold process_single_trial
  rw [hg]
  simp [h1, h2]

theorem process_single_trial_unmatched {timing_data : List Row} {i : ℕ} {row : Row}
    (hg : timing_data.get? i = some row)
    (h1 : strContains (strToLower row.cue_type) "smile" = false)
    (h2 : strContains (strToLower row.cue_type) "neutral" = false) :
    process_single_trial timing_data i = [] := by
  unfold process_single_trial
  rw [hg]
  simp [h1, h2]

theorem trial_event_labels {e : Event} {timing_data : List Row} {i : ℕ}
    (h : e ∈ process_single_trial timing_data i) :
    e.trial_type ∈ midtTrialTypes ∧
    (e.trial_type ∈ feedbackTrialTypes → e.duration = some 2) := by
  rcases hg : timing_data.get? i with _ | row
  · rw [process_single_trial_none hg] at h
    simp at h
  · cases h1 : strContains (strToLower row.cue_type) "smile"
    · cases h2 : strContains (strToLower row.cue_type) "neutral"
      · rw [process_single_trial_unmatched hg h1 h2] at h
        simp at h
      · rw [process_single_trial_neutral hg h1 h2] at h
        simp only [List.mem_cons, List.not_mem_nil, or_false] at h
        rcases h with rfl | rfl
        · exact ⟨by simp [midtTrialTypes],
            fun hmem => absurd hmem (by simp [feedbackTrialTypes])⟩
        · refine ⟨?_, fun _ => rfl⟩
          by_cases ha : row.acc = some 1 <;> simp [ha, midtTrialTypes]
    · rw [process_single_trial_reward hg h1] at h
      simp only [List.mem_cons, List.not_mem_nil, or_false] at h
      rcases h with rfl | rfl
      · exact ⟨by simp [midtTrialTypes],
          fun hmem => absurd hmem (by simp [feedbackTrialTypes])⟩
      · refine ⟨?_, fun _ => rfl⟩
        by_cases ha : row.acc = some 1 <;> simp [ha, midtTrialTypes]

theorem extract_ok_inv {timing_data : List Row} {events : List Event}
    (hok : extract_midt_events timing_data = .ok events) :
    events = filterNonNeg (adjustOnsets (sortByOnset (eventsList timing_data))) := by
  by_cases h1 : timing_data.isEmpty = true
  · simp [extract_midt_events, h1] at hok
  · by_cases h2 : (eventsList timing_data).isEmpty = true
    · simp [extract_midt_events, h1, h2] at hok
    · simp [extract_midt_events, h1, h2] at hok
      exact hok.symm

theorem rowsNegDur_eval : extract_midt_events rowsNegDur = .ok eventsNegDur := by
  have h1 : strContains (strToLower "smile") "smile" = true := by decide
  have h2 : strContains (strToLower "fix") "smile" = false := by decide
  have h3 : strContains (strToLower "fix") "neutral" = false := by decide
  norm_num [extract_midt_events, eventsList, trialWindow, process_single_trial,
    nanDiv1000, nanSub, sortByOnset, insertEvent, onsetLe, adjustOnsets,
    shiftEvent, filterNonNeg, nanGe0, dummy_scan_time, dummy_scans, tr,
    h1, h2, h3, fillerRow, negDurRow, rowsNegDur, eventsNegDur,
    List.replicate, List.range']

/-- Claim C1 counterexample: the decoder returns normally on `rowsNegDur`
even though the emitted anticipation event has duration −1 s (its cue-offset
timestamp precedes its cue-onset timestamp), so "every emitted event has
duration ≥ 0" is false as stated. -/
theorem c1_counterexample :
    extract_midt_events rowsNegDur = .ok eventsNegDur ∧
    (⟨some 2, some (-1), "anticip-reward", some 1, none⟩ : Event) ∈ eventsNegDur ∧
    (⟨some 2, some (-1), "anticip-reward", some 1, none⟩ : Event).duration = some (-1) ∧
    (-1 : ℚ) < 0 := by
  refine ⟨rowsNegDur_eval, by decide, rfl, by norm_num⟩

/-- Claim C1 (amended): every event of a successful decode has a
non-negative onset (the negative-onset filter) and a trial type drawn from
the closed six-label set, and every feedback event has duration exactly
2.0 s; anticipation durations, however, are the raw cue-offset − cue-onset
difference and may be negative or missing when the timestamps are out of
order or non-numeric. -/
theorem c1_decoded_event_invariants (timing_data : List Row) (events : List Event)
    (hok : extract_midt_events timing_data = .ok events) :
    ∀ e ∈ events,
      (∃ x, e.onset = some x ∧ 0 ≤ x) ∧
      e.trial_type ∈ midtTrialTypes ∧
      (e.trial_type ∈ feedbackTrialTypes → e.duration = some 2) := by
  intro e he
  rw [extract_ok_inv hok] at he
  simp only [filterNonNeg] at he
  have hpred : nanGe0 e.onset = true := by
    have := List.of_mem_filter he
    simpa using this
  have hmem : e ∈ adjustOnsets (sortByOnset (eventsList timing_data)) :=
    List.mem_of_mem_filter he
  simp only [adjustOnsets] at hmem
  rcases List.mem_map.mp hmem with ⟨e0, he0, rfl⟩
  have he1 : e0 ∈ eventsList timing_data := mem_sortByOnset.mp he0
  rcases List.mem_flatMap.mp he1 with ⟨i, _, hei⟩
  have hlab := trial_event_labels hei
  refine ⟨nanGe0_true hpred, ?_, ?_⟩
  · simpa [shiftEvent] using hlab.1
  · intro hfb
    have : e0.trial_type ∈ feedbackTrialTypes := by simpa [shiftEvent] using hfb
    simpa [shiftEvent] using hlab.2 this

/-- Claim C1 witness: the feedback event of the `rowsNegDur` decode
satisfies the amended invariants. -/
theorem c1_witness :
    extract_midt_events rowsNegDur = .ok eventsNegDur ∧
    ((∃ x, (⟨some 4, some 2, "fb-reward", some 1, none⟩ : Event).onset = some x ∧ 0 ≤ x) ∧
      (⟨some 4, some 2, "fb-reward", some 1, none⟩ : Event).trial_type ∈ midtTrialTypes ∧
      ((⟨some 4, some 2, "fb-reward", some 1, none⟩ : Event).trial_type ∈ feedbackTrialTypes →
        (⟨some 4, some 2, "fb-reward", some 1, none⟩ : Event).duration = some 2)) :=
  ⟨rowsNegDur_eval,
   c1_decoded_event_invariants rowsNegDur eventsNegDur rowsNegDur_eval
     ⟨some 4, some 2, "fb-reward", some 1, none⟩ (by decide)⟩

/-! ## Claim theorems: cue-type dispatch (events.py) -/

/-- Claim C2 counterexample: a trial in the classification window whose
cue-type label is literally `reward` contains the claim's reward keyword,
yet the decoder emits no events for it (the code keys the reward class on
the substring `smile`), and a log consisting only of such trials fails with
the no-valid-trials error. -/
theorem c2_counterexample :
    strContains (strToLower rewardNameRow.cue_type) "reward" = true ∧
    20 ∈ trialWindow rowsRewardName ∧
    process_single_trial rowsRewardName 20 = [] ∧
    extract_midt_events rowsRewardName = .error .noValidTrials := by
  refine ⟨by decide, by decide, ?_, ?_⟩
  · exact @process_single_trial_unmatched rowsRewardName 20 rewardNameRow
      (by decide) (by decide) (by decide)
  · have h1 : strContains (strToLower "reward") "smile" = false := by decide
    have h2 : strContains (strToLower "reward") "neutral" = false := by decide
    have h3 : strContains (strToLower "fix") "smile" = false := by decide
    have h4 : strContains (strToLower "fix") "neutral" = false := by decide
    norm_num [extract_midt_events, eventsList, trialWindow, process_single_trial,
      h1, h2, h3, h4, fillerRow, rewardNameRow, rowsRewardName,
      List.replicate, List.range']

/-- Claim C2 (amended): each in-window trial's cue-type label is matched
case-insensitively against the keyword `smile` for the reward class (not the
literal keyword `reward`) and `neutral` for the neutral class, reward tested
first; a `smile` match yields the reward anticipation/feedback event pair, a
`neutral`-only match yields the neutral pair, and a label matching neither
yields no events and no error. -/
theorem c2_cue_dispatch (timing_data : List Row) (i : ℕ) (row : Row)
    (hg : timing_data.get? i = some row) :
    (strContains (strToLower row.cue_type) "smile" = true →
      (process_single_trial timing_data i).map Event.trial_type =
        ["anticip-reward",
         if row.acc = some 1 then "fb-reward" else "fb-miss-reward"]) ∧
    (strContains (strToLower row.cue_type) "smile" = false →
     strContains (strToLower row.cue_type) "neutral" = true →
      (process_single_trial timing_data i).map Event.trial_type =
        ["anticip-neutral",
         if row.acc = some 1 then "fb-corr-neutral" else "fb-incorr-neutral"]) ∧
    (strContains (strToLower row.cue_type) "smile" = false →
     strContains (strToLower row.cue_type) "neutral" = false →
      process_single_trial timing_data i = []) := by
  refine ⟨?_, ?_, ?_⟩
  · intro h1
    rw [process_single_trial_reward hg h1]
    simp
  · intro h1 h2
    rw [process_single_trial_neutral hg h1 h2]
    simp
  · intro h1 h2
    exact process_single_trial_unmatched hg h1 h2

/-- Claim C2 witness: the neutral trial at window index 21 of
`rowsTwoTrials` yields the neutral anticipation/feedback pair. -/
theorem c2_witness :
    rowsTwoTrials.get? 21 = some neutralRow ∧
    (process_single_trial rowsTwoTrials 21).map Event.trial_type =
      ["anticip-neutral",
       if neutralRow.acc = some 1 then "fb-corr-neutral" else "fb-incorr-neutral"] :=
  ⟨by decide,
   (c2_cue_dispatch rowsTwoTrials 21 neutralRow (by decide)).2.1
     (by decide) (by decide)⟩

/-! ## Claim theorems: dummy-scan shift vs configuration (events.py) -/

/-- Modelled from the spec: the onset shift the specification says the
decoder applies, `configured dummy_scans × configured TR` seconds, for
comparison against the shift the code actually applies. -/
def configDummyShift (config : MIDTConfig) : ℚ :=
  (config.dummy_scans : ℚ) * config.tr

/-- A configuration whose dummy-scan count (3) and TR (2.0 s) differ from
the decoder's hard-coded values. -/
def cfgThreeTwo : MIDTConfig :=
  { subject_ids := [], sessions_to_process := [], excluded_subjects := [],
    tr := 2, dummy_scans := 3 }

/-- The decoded output of `rowsShiftDemo`: raw onsets 20 s and 24 s, both
shifted by the hard-coded 8 s. -/
def eventsShiftDemo : List Event :=
  [⟨some 12, some 1, "anticip-reward", some 1, none⟩,
   ⟨some 16, some 2, "fb-reward", some 1, none⟩]

theorem rowsShiftDemo_eval :
    extract_midt_events rowsShiftDemo = .ok eventsShiftDemo := by
  have h1 : strContains (strToLower "smile") "smile" = true := by decide
  have h2 : strContains (strToLower "fix") "smile" = false := by decide
  have h3 : strContains (strToLower "fix") "neutral" = false := by decide
  norm_num [extract_midt_events, eventsList, trialWindow, process_single_trial,
    nanDiv1000, nanSub, sortByOnset, insertEvent, onsetLe, adjustOnsets,
    shiftEvent, filterNonNeg, nanGe0, dummy_scan_time, dummy_scans, tr,
    h1, h2, h3, fillerRow, shiftDemoRow, rowsShiftDemo, eventsShiftDemo,
    List.replicate, List.range']

/-- Claim C3 (code bug): `extract_midt_events` does not take its dummy-scan
count and TR from the configuration — the shift is hard-coded to
`5 × 1.6 = 8.0` s, so for a configuration with `dummy_scans = 3` and
`TR = 2.0` the claim's shift (6.0 s) differs from the shift the code applies
(8.0 s): raw onsets 20 s / 24 s decode to 12 s / 16 s, not 14 s / 18 s. -/
theorem c3_shift_ignores_config :
    dummy_scan_time = 8 ∧
    configDummyShift cfgThreeTwo = 6 ∧
    configDummyShift cfgThreeTwo ≠ dummy_scan_time ∧
    extract_midt_events rowsShiftDemo = .ok eventsShiftDemo ∧
    eventsShiftDemo.map Event.onset =
      [some (20 - dummy_scan_time), some (24 - dummy_scan_time)] := by
  refine ⟨?_, ?_, ?_, rowsShiftDemo_eval, ?_⟩
  · norm_num [dummy_scan_time, dummy_scans, tr]
  · norm_num [configDummyShift, cfgThreeTwo]
  · norm_num [configDummyShift, cfgThreeTwo, dummy_scan_time, dummy_scans, tr]
  · norm_num [eventsShiftDemo, dummy_scan_time, dummy_scans, tr]

/-! ## Claim theorems: decoder error behavior (events.py) -/

/-- Claim C6: the decoder errors exactly when decoding cannot proceed — the
empty-timing-file error exactly when there are no data rows, the
no-valid-trials error exactly when the table is nonempty but every trial in
the classification window yields no events, and a normal return exactly when
some in-window trial yields an event. -/
theorem c6_error_conditions (timing_data : List Row) :
    (extract_midt_events timing_data = .error .emptyTimingFile ↔
      timing_data = []) ∧
    (extract_midt_events timing_data = .error .noValidTrials ↔
      timing_data ≠ [] ∧
      ∀ i ∈ trialWindow timing_data, process_single_trial timing_data i = []) ∧
    ((∃ events, extract_midt_events timing_data = .ok events) ↔
      timing_data ≠ [] ∧
      ∃ i ∈ trialWindow timing_data, process_single_trial timing_data i ≠ []) := by
  have hflat : eventsList timing_data = [] ↔
      ∀ i ∈ trialWindow timing_data, process_single_trial timing_data i = [] := by
    simp [eventsList, List.flatMap_eq_nil_iff]
  by_cases h1 : timing_data.isEmpty = true
  · have he : timing_data = [] := by simpa [List.isEmpty_iff] using h1
    refine ⟨by simp [extract_midt_events, h1, he], ?_, ?_⟩
    · simp [extract_midt_events, h1, he]
    · simp [extract_midt_events, h1, he]
  · have he : timing_data ≠ [] := by simpa [List.isEmpty_iff] using h1
    by_cases h2 : (eventsList timing_data).isEmpty = true
    · have h2e : ∀ i ∈ trialWindow timing_data,
          process_single_trial timing_data i = [] :=
        hflat.mp (by simpa [List.isEmpty_iff] using h2)
      refine ⟨by simp [extract_midt_events, h1, h2, he], ?_, ?_⟩
      · constructor
        · intro _
          exact ⟨he, h2e⟩
        · intro _
          simp [extract_midt_events, h1, h2]
      · constructor
        · rintro ⟨events, hev⟩
          exact absurd hev (by simp [extract_midt_events, h1, h2])
        · rintro ⟨-, i, hi, hne⟩
          exact absurd (h2e i hi) hne
    · have h2e : ¬∀ i ∈ trialWindow timing_data,
          process_single_trial timing_data i = [] := by
        rw [← hflat]
        simpa [List.isEmpty_iff] using h2
      refine ⟨by simp [extract_midt_events, h1, h2, he], ?_, ?_⟩
      · constructor
        · intro hev
          exact absurd hev (by simp [extract_midt_events, h1, h2])
        · rintro ⟨-, hall⟩
          exact absurd hall h2e
      · constructor
        · rintro -
          refine ⟨he, ?_⟩
          push_neg at h2e
          exact h2e
        · rintro -
          exact ⟨filterNonNeg (adjustOnsets (sortByOnset (eventsList timing_data))),
            by simp [extract_midt_events, h1, h2]⟩

/-- Claim C6 witness: a 21-row table whose only in-window trial is
unrecognized fails with the no-valid-trials error, and the empty table
fails with the empty-timing-file error. -/
theorem c6_witness :
    extract_midt_events ([] : List Row) = .error .emptyTimingFile ∧
    extract_midt_events rowsRewardName = .error .noValidTrials ∧
    (∃ events, extract_midt_events rowsShiftDemo = .ok events) := by
  refine ⟨?_, ?_, ?_⟩
  · exact (c6_error_conditions []).1.mpr rfl
  · refine (c6_error_conditions rowsRewardName).2.1.mpr ⟨by decide, ?_⟩
    intro i hi
    have hi20 : i = 20 := by
      have : trialWindow rowsRewardName = [20] := by decide
      rw [this] at hi
      simpa using hi
    subst hi20
    exact @process_single_trial_unmatched rowsRewardName 20 rewardNameRow
      (by decide) (by decide) (by decide)
  · exact (c6_error_conditions rowsShiftDemo).2.2.mpr
      ⟨by decide, 20, by decide, by
        rw [@process_single_trial_reward rowsShiftDemo 20 shiftDemoRow
          (by decide) (by decide)]
        simp⟩

/-! ## Claim theorems: contrast resolution (first_level.py) -/

theorem pairedVector_resolves {condition_columns : List String} {pos neg : String}
    (hne : pos ≠ neg) (hpos : pos ∈ condition_columns) (hneg : neg ∈ condition_columns) :
    ∃ w, pairedVector condition_columns pos neg = some (.vec w) ∧
      w.length = condition_columns.length ∧
      w.get? (condition_columns.indexOf pos) = some 1 ∧
      w.get? (condition_columns.indexOf neg) = some (-1) ∧
      ∀ j, j < condition_columns.length →
        j ≠ condition_columns.indexOf pos → j ≠ condition_columns.indexOf neg →
        w.get? j = some 0 := by
  have hip : condition_columns.indexOf pos < condition_columns.length :=
    List.indexOf_lt_length.mpr hpos
  have hin : condition_columns.indexOf neg < condition_columns.length :=
    List.indexOf_lt_length.mpr hneg
  have hii : condition_columns.indexOf pos ≠ condition_columns.indexOf neg :=
    fun hc => hne ((List.indexOf_inj hpos hneg).mp hc)
  refine ⟨((List.replicate condition_columns.length (0 : ℚ)).set
      (condition_columns.indexOf pos) 1).set (condition_columns.indexOf neg) (-1),
    ?_, ?_, ?_, ?_, ?_⟩
  · unfold pairedVector
    rw [if_pos ⟨hpos, hneg⟩]
  · simp
  · rw [List.get?_set_ne _ _ (Ne.symm hii),
      List.get?_set_eq_of_lt _ (by simpa using hip)]
  · rw [List.get?_set_eq_of_lt _ (by simpa using hin)]
  · intro j hj hjp hjn
    rw [List.get?_set_ne _ _ (Ne.symm hjn), List.get?_set_ne _ _ (Ne.symm hjp),
      List.get?_eq_getElem?, List.getElem?_replicate, if_pos hj]

/-- Claim C4 counterexample: `anticip-neutral-vs-reward` is a paired contrast
of the catalogue, and both of its conditions are present in the realized
condition columns, yet the per-contrast dispatch of `run_first_level_midt`
skips it (the reversed paired contrasts fall into the unconditional
`Skipping complex contrast` branch), so no ±1 weight vector is ever placed
for it. -/
theorem c4_counterexample :
    ("anticip-neutral-vs-reward", ([-1, 1, 0, 0, 0, 0] : List ℚ)) ∈ define_midt_contrasts ∧
    "anticip-reward" ∈ conditionColumns ["anticip-reward", "anticip-neutral", "drift_1", "constant"] ∧
    "anticip-neutral" ∈ conditionColumns ["anticip-reward", "anticip-neutral", "drift_1", "constant"] ∧
    resolve_contrast "anticip-neutral-vs-reward"
      (conditionColumns ["anticip-reward", "anticip-neutral", "drift_1", "constant"]) = none := by
  refine ⟨by decide, by decide, by decide, by simp [resolve_contrast]⟩

/-- Claim C4 (amended): of the eight paired contrasts in the catalogue, only
the four forward ones are handled by the per-contrast dispatch; for each of
those, when both referenced conditions are present in the realized condition
columns the produced weight vector has `+1` at the name-looked-up index of
the positive condition, `-1` at that of the negative condition and `0`
elsewhere, and when either condition is absent the contrast is skipped
(`none`), never produced with zero or default weights.  The four reversed
paired contrasts are always skipped. -/
theorem c4_paired_contrast_resolution (contrast_name pos neg : String)
    (condition_columns : List String)
    (hmem : (contrast_name, pos, neg) ∈ handledPairedContrasts) :
    (pos ∈ condition_columns → neg ∈ condition_columns →
      ∃ w, resolve_contrast contrast_name condition_columns = some (.vec w) ∧
        w.length = condition_columns.length ∧
        w.get? (condition_columns.indexOf pos) = some 1 ∧
        w.get? (condition_columns.indexOf neg) = some (-1) ∧
        ∀ j, j < condition_columns.length →
          j ≠ condition_columns.indexOf pos → j ≠ condition_columns.indexOf neg →
          w.get? j = some 0) ∧
    (¬(pos ∈ condition_columns ∧ neg ∈ condition_columns) →
      resolve_contrast contrast_name condition_columns = none) := by
  have hcases : (contrast_name = "anticip-reward-vs-neutral" ∧
      pos = "anticip-reward" ∧ neg = "anticip-neutral") ∨
      (contrast_name = "feedback-reward-vs-neutral-correct" ∧
      pos = "fb-reward" ∧ neg = "fb-corr-neutral") ∨
      (contrast_name = "feedback-reward-success-vs-failure" ∧
      pos = "fb-reward" ∧ neg = "fb-miss-reward") ∨
      (contrast_name = "feedback-neutral-success-vs-failure" ∧
      pos = "fb-corr-neutral" ∧ neg = "fb-incorr-neutral") := by
    simpa [handledPairedContrasts, Prod.ext_iff] using hmem
  rcases hcases with ⟨rfl, rfl, rfl⟩ | ⟨rfl, rfl, rfl⟩ | ⟨rfl, rfl, rfl⟩ | ⟨rfl, rfl, rfl⟩
  · have hred : resolve_contrast "anticip-reward-vs-neutral" condition_columns =
        pairedVector condition_columns "anticip-reward" "anticip-neutral" := by
      simp [resolve_contrast]
    constructor
    · intro hpos hneg
      have hr := @pairedVector_resolves condition_columns "anticip-reward" "anticip-neutral"
        (by decide) hpos hneg
      rw [hred]
      exact hr
    · intro hboth
      rw [hred]
      unfold pairedVector
      rw [if_neg hboth]
  · have hred : resolve_contrast "feedback-reward-vs-neutral-correct" condition_columns =
        pairedVector condition_columns "fb-reward" "fb-corr-neutral" := by
      simp [resolve_contrast]
    constructor
    · intro hpos hneg
      have hr := @pairedVector_resolves condition_columns "fb-reward" "fb-corr-neutral"
        (by decide) hpos hneg
      rw [hred]
      exact hr
    · intro hboth
      rw [hred]
      unfold pairedVector
      rw [if_neg hboth]
  · have hred : resolve_contrast "feedback-reward-success-vs-failure" condition_columns =
        pairedVector condition_columns "fb-reward" "fb-miss-reward" := by
      simp [resolve_contrast]
    constructor
    · intro hpos hneg
      have hr := @pairedVector_resolves condition_columns "fb-reward" "fb-miss-reward"
        (by decide) hpos hneg
      rw [hred]
      exact hr
    · intro hboth
      rw [hred]
      unfold pairedVector
      rw [if_neg hboth]
  · have hred : resolve_contrast "feedback-neutral-success-vs-failure" condition_columns =
        pairedVector condition_columns "fb-corr-neutral" "fb-incorr-neutral" := by
      simp [resolve_contrast]
    constructor
    · intro hpos hneg
      have hr := @pairedVector_resolves condition_columns "fb-corr-neutral" "fb-incorr-neutral"
        (by decide) hpos hneg
      rw [hred]
      exact hr
    · intro hboth
      rw [hred]
      unfold pairedVector
      rw [if_neg hboth]

/-- Realized condition columns used by the contrast-resolution witness. -/
def colsDemo : List String :=
  conditionColumns ["fb-reward", "anticip-neutral", "anticip-reward", "drift_1"]

/-- Claim C4 witness: `anticip-reward-vs-neutral` against realized condition
columns `[fb-reward, anticip-neutral, anticip-reward]` resolves to a weight
vector with `+1` at index 2 and `-1` at index 1, found by name lookup. -/
theorem c4_witness :
    ("anticip-reward-vs-neutral", "anticip-reward", "anticip-neutral") ∈ handledPairedContrasts ∧
    (∃ w, resolve_contrast "anticip-reward-vs-neutral" colsDemo = some (.vec w) ∧
      w.length = colsDemo.length ∧
      w.get? (colsDemo.indexOf "anticip-reward") = some 1 ∧
      w.get? (colsDemo.indexOf "anticip-neutral") = some (-1) ∧
      ∀ j, j < colsDemo.length →
        j ≠ colsDemo.indexOf "anticip-reward" → j ≠ colsDemo.indexOf "anticip-neutral" →
        w.get? j = some 0) :=
  ⟨by decide,
   (c4_paired_contrast_resolution "anticip-reward-vs-neutral" "anticip-reward"
     "anticip-neutral" colsDemo (by decide)).1 (by decide) (by decide)⟩

/-! ## Claim theorems: motion QC sentinels (motion.py) -/

theorem indicesContaining_nil {motion_params : List String} {pat : String}
    (h : ∀ p ∈ motion_params, strContains p pat = false) :
    indicesContaining motion_params pat = [] := by
  unfold indicesContaining
  rw [List.map_eq_nil, List.filter_eq_nil_iff]
  intro a ha
  have hmem : a.2 ∈ motion_params :=
    List.getElem?_mem (List.mem_enum_iff_getElem?.mp ha)
  simp [h a.2 hmem]

/-- Claim C7: if no rotation-axis column is among the available motion
parameters, both rotation summary fields are the missing-value sentinel
(`none`, never zero); symmetrically, if no translation-axis column is
present, all five translation magnitude fields are the sentinel. -/
theorem c7_motion_sentinels (motion_data : List (List ℝ)) (motion_params : List String) :
    ((∀ p ∈ motion_params, strContains p "rot" = false) →
      (calculate_motion_qc motion_data motion_params).max_rotation_deg = none ∧
      (calculate_motion_qc motion_data motion_params).mean_rotation_deg = none) ∧
    ((∀ p ∈ motion_params, strContains p "trans" = false) →
      (calculate_motion_qc motion_data motion_params).max_motion_mm = none ∧
      (calculate_motion_qc motion_data motion_params).mean_motion_mm = none ∧
      (calculate_motion_qc motion_data motion_params).std_motion_mm = none ∧
      (calculate_motion_qc motion_data motion_params).max_abs_displacement = none ∧
      (calculate_motion_qc motion_data motion_params).mean_abs_displacement = none) := by
  constructor
  · intro h
    have hidx := indicesContaining_nil h
    simp [calculate_motion_qc, hidx, rotStats]
  · intro h
    have hidx := indicesContaining_nil h
    simp [calculate_motion_qc, hidx, transStats]

/-- Claim C7 witness: a two-volume trace with only the three translation
columns has sentinel rotation statistics. -/
theorem c7_witness :
    (∀ p ∈ (["trans_x", "trans_y", "trans_z"] : List String),
      strContains p "rot" = false) ∧
    (calculate_motion_qc [[1, 0, 0], [0, 2, 0]]
      ["trans_x", "trans_y", "trans_z"]).max_rotation_deg = none ∧
    (calculate_motion_qc [[1, 0, 0], [0, 2, 0]]
      ["trans_x", "trans_y", "trans_z"]).mean_rotation_deg = none := by
  have h := (c7_motion_sentinels [[1, 0, 0], [0, 2, 0]]
    ["trans_x", "trans_y", "trans_z"]).1 (by decide)
  exact ⟨by decide, h.1, h.2⟩

/-! ## Claim theorems: exclusion-list semantics (config.py) -/

theorem applyExclusion_subset (session : String) (valid_subjects : List String)
    (exclusion : List String) :
    applyExclusion session valid_subjects exclusion ⊆ valid_subjects := by
  unfold applyExclusion
  split_ifs
  · exact List.erase_subset _ _
  · exact fun a ha => ha
  · exact fun a ha => ha

theorem foldl_exclusions_subset (session : String) :
    ∀ (exclusions : List (List String)) (valid_subjects : List String),
    exclusions.foldl (applyExclusion session) valid_subjects ⊆ valid_subjects := by
  intro exclusions
  induction exclusions with
  | nil => exact fun valid_subjects a ha => ha
  | cons e rest ih =>
    intro valid_subjects a ha
    exact applyExclusion_subset session valid_subjects e (ih _ ha)

theorem applyExclusion_nodup (session : String) {valid_subjects : List String}
    (exclusion : List String) (h : valid_subjects.Nodup) :
    (applyExclusion session valid_subjects exclusion).Nodup := by
  unfold applyExclusion
  split_ifs
  · exact h.erase _
  · exact h
  · exact h

theorem foldl_exclusions_not_mem (session : String) (s : String) :
    ∀ (exclusions : List (List String)) (valid_subjects : List String),
    valid_subjects.Nodup →
    (∃ e ∈ exclusions, 3 ≤ e.length ∧ e.getD 0 "" = s ∧
      sessionAffected (e.getD 2 "") session = true) →
    s ∉ exclusions.foldl (applyExclusion session) valid_subjects := by
  intro exclusions
  induction exclusions with
  | nil =>
    rintro valid_subjects - ⟨e, he, -⟩
    simp at he
  | cons e0 rest ih =>
    rintro valid_subjects hnd ⟨e, he, hlen, hsubj, haff⟩
    rcases List.mem_cons.mp he with rfl | he2
    · intro hmem
      rw [List.foldl_cons] at hmem
      have hmem2 : s ∈ applyExclusion session valid_subjects e :=
        foldl_exclusions_subset session rest _ hmem
      unfold applyExclusion at hmem2
      rw [if_pos hlen, hsubj] at hmem2
      by_cases hm : s ∈ valid_subjects
      · rw [if_pos ⟨haff, hm⟩] at hmem2
        exact hnd.not_mem_erase hmem2
      · rw [if_neg (fun hc => hm hc.2)] at hmem2
        exact hm hmem2
    · exact ih (applyExclusion session valid_subjects e0)
        (applyExclusion_nodup session e0 hnd) ⟨e, he2, hlen, hsubj, haff⟩

theorem foldl_exclusions_mem (session : String) (s : String) :
    ∀ (exclusions : List (List String)) (valid_subjects : List String),
    s ∈ valid_subjects →
    (∀ e ∈ exclusions, ¬(3 ≤ e.length ∧ e.getD 0 "" = s ∧
      sessionAffected (e.getD 2 "") session = true)) →
    s ∈ exclusions.foldl (applyExclusion session) valid_subjects := by
  intro exclusions
  induction exclusions with
  | nil => exact fun valid_subjects h _ => h
  | cons e0 rest ih =>
    intro valid_subjects hmem hno
    refine ih _ ?_ (fun e he => hno e (List.mem_cons_of_mem _ he))
    unfold applyExclusion
    split_ifs with hlen hcond
    · have hne : s ≠ e0.getD 0 "" := by
        intro heq
        exact hno e0 (List.mem_cons_self _ _) ⟨hlen, heq.symm, hcond.1⟩
      exact (List.mem_erase_of_ne hne).mpr hmem
    · exact hmem
    · exact hmem

/-- Claim C8: an exclusion entry whose affected-sessions field is `all`
removes its subject from every session's eligible list; an entry tagged
`ses-<t>` removes the subject from session `t`'s eligible list; and a
subject not targeted by any entry affecting a session remains eligible
there (so a single session-tagged entry leaves the subject eligible in all
other sessions). -/
theorem c8_exclusion_semantics (config : MIDTConfig) (s session sessionB : String)
    (hnodup : config.subject_ids.Nodup) :
    ((∃ e ∈ config.excluded_subjects, 3 ≤ e.length ∧ e.getD 0 "" = s ∧
        e.getD 2 "" = "all") →
      s ∉ config.get_valid_subjects_for_session session) ∧
    ((∃ e ∈ config.excluded_subjects, 3 ≤ e.length ∧ e.getD 0 "" = s ∧
        e.getD 2 "" = "ses-" ++ session) →
      s ∉ config.get_valid_subjects_for_session session) ∧
    (s ∈ config.subject_ids →
      (∀ e ∈ config.excluded_subjects,
        ¬(3 ≤ e.length ∧ e.getD 0 "" = s ∧
          sessionAffected (e.getD 2 "") sessionB = true)) →
      s ∈ config.get_valid_subjects_for_session sessionB) := by
  refine ⟨?_, ?_, ?_⟩
  · rintro ⟨e, he, hlen, hsubj, hall⟩
    refine foldl_exclusions_not_mem session s config.excluded_subjects
      config.subject_ids hnodup ⟨e, he, hlen, hsubj, ?_⟩
    rw [hall]
    simp [sessionAffected]
  · rintro ⟨e, he, hlen, hsubj, hses⟩
    refine foldl_exclusions_not_mem session s config.excluded_subjects
      config.subject_ids hnodup ⟨e, he, hlen, hsubj, ?_⟩
    rw [hses]
    simp [sessionAffected]
  · intro hmem hno
    exact foldl_exclusions_mem sessionB s config.excluded_subjects
      config.subject_ids hmem hno

/-- A two-subject, two-session configuration with a single session-tagged
exclusion entry. -/
def cfgExcl : MIDTConfig :=
  { subject_ids := ["sub-001", "sub-002"], sessions_to_process := ["1", "2"],
    excluded_subjects := [["sub-001", "timing issues", "ses-1"]],
    tr := 8 / 5, dummy_scans := 5 }

/-- Claim C8 witness: the `ses-1`-tagged entry removes `sub-001` from
session 1's eligible list and leaves it eligible in session 2. -/
theorem c8_witness :
    (["sub-001", "sub-002"] : List String).Nodup ∧
    "sub-001" ∉ cfgExcl.get_valid_subjects_for_session "1" ∧
    "sub-001" ∈ cfgExcl.get_valid_subjects_for_session "2" := by
  have h := c8_exclusion_semantics cfgExcl "sub-001" "1" "2" (by decide)
  refine ⟨by decide, ?_, ?_⟩
  · exact h.2.1 ⟨["sub-001", "timing issues", "ses-1"],
      by decide, by decide, by decide, by decide⟩
  · exact h.2.2 (by decide) (by decide)

end MIDT
